import Mathlib

/-
Shallow embedding of the labwc sources src/src/xwayland.c and src/src/action.c.

Machine integers are modelled as Int with explicit reductions modulo 2^16
where the C code casts to int16_t / uint16_t.  Pointers that may be NULL are
modelled as Option.  External collaborators (wlroots, ssd.c, view.c, menu.c,
workspaces.c, desktop.c) are modelled either as opaque function parameters
collected in environment records, or as logged effects.
-/

/- ===================================================================
   Geometry reconciliation: struct view_pending_move_resize and
   handle_commit (src/src/xwayland.c lines 8-49)
   =================================================================== -/

/- The pending move/resize record per view (struct view_pending_move_resize,
declared in labwc.h, outside src/; its fields are used directly by
xwayland.c).  The C `width`/`height` fields go through an `(int)` cast in
handle_commit; we model them as Int, carrying the value stored by
`configure`, so the cast is the identity. -/
structure view_pending_move_resize where
  update_x : Bool
  update_y : Bool
  x : Int
  y : Int
  width : Int
  height : Int
deriving DecidableEq, Repr

/- The slice of struct view used by handle_commit / configure / move. -/
structure view where
  x : Int
  y : Int
  w : Int
  h : Int
  pending_move_resize : view_pending_move_resize
deriving DecidableEq, Repr

/- The slice of wlr_surface_state read by handle_commit (current client
committed size). -/
structure wlr_surface_state where
  width : Int
  height : Int
deriving DecidableEq, Repr

/- Observable side effects of handle_commit: the scene-node reposition
(wlr_scene_node_set_position) and the decoration geometry update
(ssd_update_geometry). -/
structure commit_effects where
  set_position : Option (Int × Int)
  ssd_update_geometry : Bool
deriving DecidableEq, Repr

/- handle_commit, xwayland.c lines 8-49, as a pure transformer of the view
slice, returning the new view state and the external calls made. -/
def handle_commit (v : view) (state : wlr_surface_state) : view × commit_effects :=
  let pending := v.pending_move_resize
  let move_pending : Bool := pending.update_x || pending.update_y
  let size_changed : Bool := (v.w != state.width) || (v.h != state.height)
  if !move_pending && !size_changed then
    (v, { set_position := Option.none, ssd_update_geometry := false })
  else
    let v := { v with w := state.width, h := state.height }
    let v := if pending.update_x then
        { v with x := pending.x + pending.width - v.w } else v
    let v := if pending.update_y then
        { v with y := pending.y + pending.height - v.h } else v
    let pos : Option (Int × Int) :=
      if move_pending then some (v.x, v.y) else Option.none
    let v := if (pending.width == v.w) && (pending.height == v.h) then
        { v with pending_move_resize :=
          { pending with update_x := false, update_y := false } }
      else v
    (v, { set_position := pos, ssd_update_geometry := true })

/- ===================================================================
   configure / move: 16-bit truncation towards the X11 client
   (src/src/xwayland.c lines 201-222)
   =================================================================== -/

/- C conversion of an int to int16_t (gcc/clang behaviour: value modulo 2^16,
re-centred into [-32768, 32767]). -/
def int16_of (z : Int) : Int :=
  let m := z % 65536
  if m < 32768 then m else m - 65536

/- C conversion of an int to uint16_t: value modulo 2^16. -/
def uint16_of (z : Int) : Int := z % 65536

/- The geometry argument of configure (struct wlr_box). -/
structure wlr_box where
  x : Int
  y : Int
  width : Int
  height : Int
deriving DecidableEq, Repr

/- The arguments of the wlr_xwayland_surface_configure call, i.e. what is
actually forwarded to the X11 client. -/
structure xconfigure_request where
  x : Int
  y : Int
  width : Int
  height : Int
deriving DecidableEq, Repr

/- configure, xwayland.c lines 201-212: record the untruncated request in
pending_move_resize and forward the 16-bit-truncated request to the client. -/
def configure (v : view) (geo : wlr_box) : view × xconfigure_request :=
  ({ v with pending_move_resize :=
      { update_x := geo.x != v.x
        update_y := geo.y != v.y
        x := geo.x
        y := geo.y
        width := geo.width
        height := geo.height } },
   { x := int16_of geo.x
     y := int16_of geo.y
     width := uint16_of geo.width
     height := uint16_of geo.height })

/- The slice of wlr_xwayland_surface read by move (current size). -/
structure xwayland_surface_geom where
  width : Int
  height : Int
deriving DecidableEq, Repr

/- move, xwayland.c lines 214-222: store the untruncated position on the view
and forward the truncated position (with the surface's current size) to the
client.  The C parameters are doubles assigned to the int fields view->x/y;
we model integral coordinates as Int. -/
def move (v : view) (s : xwayland_surface_geom) (x y : Int) :
    view × xconfigure_request :=
  ({ v with x := x, y := y },
   { x := int16_of x
     y := int16_of y
     width := uint16_of s.width
     height := uint16_of s.height })

/- ===================================================================
   get_string_prop (src/src/xwayland.c lines 230-244)
   =================================================================== -/

/- The metadata slice of wlr_xwayland_surface.  `title` and `class` are
char pointers that may be NULL; the C field `class` is renamed wm_class
here because `class` is a Lean keyword. -/
structure xwayland_surface_props where
  title : Option String
  wm_class : Option String
deriving DecidableEq, Repr

/- get_string_prop, xwayland.c lines 230-244.  Returns some "" (the C string
literal "") for unknown property names; for the three known names it returns
the stored pointer unchanged, which may be Option.none (NULL). -/
def get_string_prop (s : xwayland_surface_props) (prop : String) : Option String :=
  if prop = "title" then s.title
  else if prop = "class" then s.wm_class
  else if prop = "app_id" then s.wm_class
  else some ""

/- ===================================================================
   map / unmap (src/src/xwayland.c lines 279-374)
   =================================================================== -/

/- External calls made during map/unmap, recorded as an effect trace. -/
inductive map_effect where
  | scene_node_set_enabled (b : Bool)
  | set_fullscreen_requested (b : Bool)
  | subsurface_tree_created (node : Nat)
  | post_no_memory
  | foreign_toplevel_created
  | view_centered
  | output_discovered
  | ssd_created
  | impl_configure (x y w h : Int)
  | signal_add_commit
  | impl_mapped
  | focus_topmost_mapped_view
deriving DecidableEq, Repr

/- The mutable view fields touched by map/unmap, except the lifecycle flags
mapped/been_mapped which only map/unmap themselves write. -/
structure view_core where
  fullscreen : Bool
  maximized : Bool
  x : Int
  y : Int
  w : Int
  h : Int
  surface : Option Nat
  scene_node : Option Nat
  toplevel_handle : Option Nat
  ssd_enabled : Bool
  margin : Int
  scene_enabled : Bool
  commit_link : Bool
  log : List map_effect
deriving DecidableEq, Repr

/- The full view slice for map/unmap. -/
structure xview where
  mapped : Bool
  been_mapped : Bool
  core : view_core
deriving DecidableEq, Repr

/- The slice of wlr_xwayland_surface read by map / want_deco. -/
structure xwayland_surface where
  fullscreen : Bool
  x : Int
  y : Int
  width : Int
  height : Int
  surface : Nat
  decorations_all : Bool
deriving DecidableEq, Repr

/- want_deco, xwayland.c lines 246-251: true iff the surface requests full
decorations (WLR_XWAYLAND_SURFACE_DECORATIONS_ALL). -/
def want_deco (xs : xwayland_surface) : Bool := xs.decorations_all

/- External collaborators called by map (view.c, ssd.c, output.c,
foreign_toplevel.c, wlroots - all outside src/), as opaque functions.
wlr_scene_subsurface_tree_create may fail (returns Option.none). -/
structure map_env where
  view_set_fullscreen : view_core → Bool → view_core
  subsurface_tree_create : Nat → Option Nat
  usable_area : Int × Int
  view_center : view_core → view_core
  view_discover_output : view_core → view_core
  ssd_thickness : view_core → Int
  ssd_create : view_core → view_core
  ssd_max_extents : view_core → Int × Int
  view_impl_map : view_core → view_core

/- top_left_edge_boundary_check, xwayland.c lines 279-293: nudge the view so
decoration overhang is on-screen, then call view->impl->configure (modelled
as a logged effect; the xwayland configure itself is `configure` above). -/
def top_left_edge_boundary_check (env : map_env) (c : view_core) : view_core :=
  let deco := env.ssd_max_extents c
  let c := if deco.1 < 0 then { c with x := c.x - deco.1 } else c
  let c := if deco.2 < 0 then { c with y := c.y - deco.2 } else c
  { c with log := c.log ++ [map_effect.impl_configure c.x c.y c.w c.h] }

/- The tail of map after the subsurface-tree step, xwayland.c lines 325-362:
foreign toplevel handle, the one-time been_mapped block, the boundary check,
registering the commit listener and view_impl_map. -/
def map_rest (env : map_env) (xs : xwayland_surface) (been_mapped : Bool)
    (c : view_core) : xview :=
  let c := if c.toplevel_handle = Option.none then
      { c with toplevel_handle := some xs.surface,
               log := c.log ++ [map_effect.foreign_toplevel_created] }
    else c
  let c := if !been_mapped then
      let c := { c with ssd_enabled := want_deco xs }
      let c := if c.ssd_enabled then { c with margin := env.ssd_thickness c } else c
      let c := if !c.maximized && !c.fullscreen then
          let c := { c with x := env.usable_area.1, y := env.usable_area.2 }
          { env.view_center c with log := (env.view_center c).log ++ [map_effect.view_centered] }
        else c
      let c := { env.view_discover_output c with
                 log := (env.view_discover_output c).log ++ [map_effect.output_discovered] }
      let c := if c.ssd_enabled then
          { env.ssd_create c with log := (env.ssd_create c).log ++ [map_effect.ssd_created] }
        else c
      c
    else c
  let c := if c.ssd_enabled && !c.fullscreen && !c.maximized then
      top_left_edge_boundary_check env c
    else c
  let c := { c with
    commit_link := true,
    log := c.log ++ [map_effect.signal_add_commit] }
  let c := { env.view_impl_map c with
             log := (env.view_impl_map c).log ++ [map_effect.impl_mapped] }
  { mapped := true, been_mapped := true, core := c }

/- map, xwayland.c lines 295-362. -/
def map (env : map_env) (xs : xwayland_surface) (v : xview) : xview :=
  if v.mapped then v
  else
    let c := v.core
    let c := { c with
      scene_enabled := true,
      log := c.log ++ [map_effect.scene_node_set_enabled true] }
    let c := if !c.fullscreen && xs.fullscreen then
        let c := env.view_set_fullscreen c true
        { c with log := c.log ++ [map_effect.set_fullscreen_requested true] }
      else c
    let c := if !c.maximized && !c.fullscreen then
        { c with x := xs.x, y := xs.y, w := xs.width, h := xs.height }
      else c
    if c.surface ≠ some xs.surface then
      let c := { c with surface := some xs.surface }
      match env.subsurface_tree_create xs.surface with
      | Option.none =>
        /- allocation failure: post no-memory and return; mapped stays true -/
        { mapped := true, been_mapped := v.been_mapped,
          core := { c with log := c.log ++ [map_effect.post_no_memory] } }
      | some node =>
        map_rest env xs v.been_mapped
          { c with
            scene_node := some node,
            log := c.log ++ [map_effect.subsurface_tree_created node] }
    else
      map_rest env xs v.been_mapped c

/- unmap, xwayland.c lines 364-374: clear mapped, remove the commit listener,
disable the scene node and refocus the topmost mapped view. -/
def unmap (v : xview) : xview :=
  if !v.mapped then v
  else
    { mapped := false, been_mapped := v.been_mapped,
      core := { v.core with
        commit_link := false
        scene_enabled := false
        log := v.core.log ++ [map_effect.scene_node_set_enabled false,
                              map_effect.focus_topmost_mapped_view] } }

/- ===================================================================
   Listener bookkeeping: xwayland_surface_new (lines 415-480) and
   handle_destroy (lines 108-135)
   =================================================================== -/

/- The per-view listeners registered by xwayland_surface_new. -/
inductive listener where
  | map_signal
  | unmap_signal
  | destroy_signal
  | request_configure
  | request_activate
  | request_minimize
  | request_maximize
  | request_fullscreen
  | request_move
  | request_resize
  | set_title
  | set_app_id
  | set_decorations
  | override_redirect
deriving DecidableEq, Repr

/- One step of handle_destroy: a wl_list_remove of a listener link, or the
final view_destroy (the free of the view object). -/
inductive destroy_step where
  | remove (l : listener)
  | view_destroy
deriving DecidableEq, Repr

/- The order in which xwayland_surface_new registers the view's listeners
(wl_signal_add calls, xwayland.c lines 444-477). -/
def xwayland_surface_new_registrations : List listener :=
  [listener.map_signal, listener.unmap_signal, listener.destroy_signal,
   listener.request_configure, listener.request_activate,
   listener.request_minimize, listener.request_maximize,
   listener.request_fullscreen, listener.request_move,
   listener.request_resize, listener.set_title, listener.set_app_id,
   listener.set_decorations, listener.override_redirect]

/- The order of the wl_list_remove calls in handle_destroy
(xwayland.c lines 118-131). -/
def handle_destroy_removals : List listener :=
  [listener.map_signal, listener.unmap_signal, listener.request_move,
   listener.request_resize, listener.request_configure,
   listener.request_activate, listener.request_minimize,
   listener.request_maximize, listener.request_fullscreen,
   listener.set_title, listener.set_app_id, listener.set_decorations,
   listener.override_redirect, listener.destroy_signal]

/- The full step trace of handle_destroy (xwayland.c lines 108-135): the
fourteen wl_list_remove calls, then view_destroy. -/
def handle_destroy_trace : List destroy_step :=
  [destroy_step.remove listener.map_signal,
   destroy_step.remove listener.unmap_signal,
   destroy_step.remove listener.request_move,
   destroy_step.remove listener.request_resize,
   destroy_step.remove listener.request_configure,
   destroy_step.remove listener.request_activate,
   destroy_step.remove listener.request_minimize,
   destroy_step.remove listener.request_maximize,
   destroy_step.remove listener.request_fullscreen,
   destroy_step.remove listener.set_title,
   destroy_step.remove listener.set_app_id,
   destroy_step.remove listener.set_decorations,
   destroy_step.remove listener.override_redirect,
   destroy_step.remove listener.destroy_signal,
   destroy_step.view_destroy]

/- ===================================================================
   Action engine (src/src/action.c)
   =================================================================== -/

/- enum action_type, action.c lines 16-39: numeric values as in C. -/
def ACTION_TYPE_NONE : Nat := 0
def ACTION_TYPE_CLOSE : Nat := 1
def ACTION_TYPE_DEBUG : Nat := 2
def ACTION_TYPE_EXECUTE : Nat := 3
def ACTION_TYPE_EXIT : Nat := 4
def ACTION_TYPE_MOVE_TO_EDGE : Nat := 5
def ACTION_TYPE_SNAP_TO_EDGE : Nat := 6
def ACTION_TYPE_NEXT_WINDOW : Nat := 7
def ACTION_TYPE_PREVIOUS_WINDOW : Nat := 8
def ACTION_TYPE_RECONFIGURE : Nat := 9
def ACTION_TYPE_SHOW_MENU : Nat := 10
def ACTION_TYPE_TOGGLE_MAXIMIZE : Nat := 11
def ACTION_TYPE_TOGGLE_FULLSCREEN : Nat := 12
def ACTION_TYPE_TOGGLE_DECORATIONS : Nat := 13
def ACTION_TYPE_TOGGLE_ALWAYS_ON_TOP : Nat := 14
def ACTION_TYPE_FOCUS : Nat := 15
def ACTION_TYPE_ICONIFY : Nat := 16
def ACTION_TYPE_MOVE : Nat := 17
def ACTION_TYPE_RAISE : Nat := 18
def ACTION_TYPE_RESIZE : Nat := 19
def ACTION_TYPE_GO_TO_DESKTOP : Nat := 20
def ACTION_TYPE_SEND_TO_DESKTOP : Nat := 21

/- action_names, action.c lines 41-65 (without the NULL terminator). -/
def action_names : List String :=
  ["NoOp", "Close", "Debug", "Execute", "Exit", "MoveToEdge", "SnapToEdge",
   "NextWindow", "PreviousWindow", "Reconfigure", "ShowMenu",
   "ToggleMaximize", "ToggleFullscreen", "ToggleDecorations",
   "ToggleAlwaysOnTop", "Focus", "Iconify", "Move", "Raise", "Resize",
   "GoToDesktop", "SendToDesktop"]

/- strcasecmp(a, b) == 0 for the ASCII action/menu names involved, i.e.
equality after lower-casing each character. -/
def strcaseeq (a b : String) : Bool :=
  a.data.map Char.toLower == b.data.map Char.toLower

/- The scan loop of action_type_from_str: walk the name table from index i,
return the index of the first case-insensitive match, 0 when exhausted. -/
def find_action_type (nm : String) : List String → Nat → Nat
  | [], _ => ACTION_TYPE_NONE
  | s :: rest, i =>
    if strcaseeq nm s then i else find_action_type nm rest (i + 1)

/- action_type_from_str, action.c lines 67-77: the loop starts at index 1,
so "NoOp" itself and every unknown name map to ACTION_TYPE_NONE. -/
def action_type_from_str (action_name : String) : Nat :=
  find_action_type action_name (action_names.drop 1) 1

/- struct action: the type tag and the optional string argument (arg is
filled in by the config parser after action_create). -/
structure action where
  type : Nat
  arg : Option String
deriving DecidableEq, Repr

/- action_create, action.c lines 79-89: NULL name yields NULL, otherwise a
zero-initialised action whose type comes from action_type_from_str. -/
def action_create (action_name : Option String) : Option action :=
  match action_name with
  | Option.none => Option.none
  | some nm => some { type := action_type_from_str nm, arg := Option.none }

/- Decoration hit-test results (enum ssd_part_type, ssd.h, outside src/);
only the constructors the action code distinguishes, plus representatives
of the remaining regions. -/
inductive ssd_part_type where
  | LAB_SSD_BUTTON_WINDOW_MENU
  | LAB_SSD_PART_TITLEBAR
  | LAB_SSD_PART_TITLE
  | LAB_SSD_BUTTON_CLOSE
  | LAB_SSD_PART_CLIENT
  | LAB_SSD_NONE
deriving DecidableEq, Repr

/- External calls made by actions_run / show_menu, recorded as effects. -/
inductive act_effect where
  | view_close (v : Nat)
  | debug_dump_scene
  | spawn_async_no_shell (cmd : String)
  | wl_display_terminate
  | view_move_to_edge (v : Option Nat) (arg : String)
  | view_snap_to_edge (v : Option Nat) (arg : String)
  | osd_update
  | kill_sighup
  | menu_set_triggered_by_view (m : Nat) (v : Option Nat)
  | menu_open (m : Nat) (x y : Int)
  | view_toggle_maximize (v : Nat)
  | view_toggle_fullscreen (v : Nat)
  | view_toggle_decorations (v : Nat)
  | view_toggle_always_on_top (v : Nat)
  | desktop_focus_and_activate_view (v : Nat)
  | view_minimize (v : Nat)
  | interactive_begin_move (v : Nat)
  | desktop_move_to_front (v : Nat)
  | interactive_begin_resize (v : Nat) (edges : Nat)
  | workspaces_switch_to (w : Nat)
  | workspaces_send_to (v : Nat) (w : Nat)
deriving DecidableEq, Repr

/- enum lab_cycle_dir (labwc.h, outside src/). -/
inductive lab_cycle_dir where
  | LAB_CYCLE_DIR_FORWARD
  | LAB_CYCLE_DIR_BACKWARD
deriving DecidableEq, Repr

/- The server state the action engine reads and writes.  Views are opaque
Nat handles.  focused models desktop_focused_view(server), view_at_cursor
models desktop_view_at_cursor(server); cursor_x/cursor_y model
server->seat.cursor->x/y.  log records the external calls made. -/
structure server where
  focused : Option Nat
  view_at_cursor : Option Nat
  cycle_view : Option Nat
  workspace_current : Nat
  cursor_x : Int
  cursor_y : Int
  log : List act_effect
deriving DecidableEq, Repr

/- Append one external call to the server's effect trace. -/
def add_effect (s : server) (e : act_effect) : server :=
  { s with log := s.log ++ [e] }

/- External collaborators of action.c (desktop.c, workspaces.c, menu.c,
ssd.c, common/buf.c - all outside src/), as opaque functions. -/
structure act_env where
  desktop_cycle_view : Option Nat → lab_cycle_dir → Option Nat
  workspaces_find : Nat → Option String → Option Nat
  menu_get_by_id : String → Option Nat
  ssd_at : Nat → Int → Int → ssd_part_type
  ssd_part_contains : ssd_part_type → ssd_part_type → Bool
  view_x : Nat → Int
  view_y : Nat → Int
  view_workspace : Nat → Nat
  buf_expand_shell_variables : Option String → String

/- desktop_focused_view(server) (desktop.c, outside src/). -/
def desktop_focused_view (s : server) : Option Nat := s.focused

/- desktop_view_at_cursor(server) (desktop.c, outside src/). -/
def desktop_view_at_cursor (s : server) : Option Nat := s.view_at_cursor

/- activator_or_focused_view, action.c lines 137-141. -/
def activator_or_focused_view (activator : Option Nat) (s : server) : Option Nat :=
  match activator with
  | some v => some v
  | Option.none => desktop_focused_view s

/- show_menu, action.c lines 101-135.  The two early returns (unknown menu;
client-menu without a view) leave the server untouched; otherwise the menu's
triggered_by_view is set and menu_open is called at the chosen anchor. -/
def show_menu (env : act_env) (s : server) (view : Option Nat)
    (menu_name : String) : server :=
  match env.menu_get_by_id menu_name with
  | Option.none => s
  | some menu =>
    let force? : Option Bool :=
      if strcaseeq menu_name "client-menu" then
        match view with
        | Option.none => Option.none
        | some v =>
          let t := env.ssd_at v s.cursor_x s.cursor_y
          some (if t = ssd_part_type.LAB_SSD_BUTTON_WINDOW_MENU then true
                else if env.ssd_part_contains ssd_part_type.LAB_SSD_PART_TITLEBAR t
                then false
                else true)
      else some false
    match force? with
    | Option.none => s
    | some force_menu_top_left =>
      let xy : Int × Int :=
        if force_menu_top_left then
          match view with
          | some v => (env.view_x v, env.view_y v)
          | Option.none => (0, 0)  -- unreachable: force is set only with a view
        else (s.cursor_x, s.cursor_y)
      add_effect
        (add_effect s (act_effect.menu_set_triggered_by_view menu view))
        (act_effect.menu_open menu xy.1 xy.2)

/- One iteration of the actions_run dispatch loop (the switch statement,
action.c lines 164-298), given the target view resolved for this iteration
(the local variable `view`).  Cases whose only effect is a wlr_log leave the
server unchanged. -/
def run_one (env : act_env) (resize_edges : Nat) (view : Option Nat)
    (s : server) (a : action) : server :=
  if a.type = ACTION_TYPE_CLOSE then
    match view with
    | some v => add_effect s (act_effect.view_close v)
    | Option.none => s
  else if a.type = ACTION_TYPE_DEBUG then
    add_effect s act_effect.debug_dump_scene
  else if a.type = ACTION_TYPE_EXECUTE then
    add_effect s (act_effect.spawn_async_no_shell
      (env.buf_expand_shell_variables a.arg))
  else if a.type = ACTION_TYPE_EXIT then
    add_effect s act_effect.wl_display_terminate
  else if a.type = ACTION_TYPE_MOVE_TO_EDGE then
    match a.arg with
    | some arg => add_effect s (act_effect.view_move_to_edge view arg)
    | Option.none => s
  else if a.type = ACTION_TYPE_SNAP_TO_EDGE then
    match a.arg with
    | some arg => add_effect s (act_effect.view_snap_to_edge view arg)
    | Option.none => s
  else if a.type = ACTION_TYPE_NEXT_WINDOW then
    add_effect
      { s with cycle_view :=
          env.desktop_cycle_view s.cycle_view lab_cycle_dir.LAB_CYCLE_DIR_FORWARD }
      act_effect.osd_update
  else if a.type = ACTION_TYPE_PREVIOUS_WINDOW then
    add_effect
      { s with cycle_view :=
          env.desktop_cycle_view s.cycle_view lab_cycle_dir.LAB_CYCLE_DIR_BACKWARD }
      act_effect.osd_update
  else if a.type = ACTION_TYPE_RECONFIGURE then
    add_effect s act_effect.kill_sighup
  else if a.type = ACTION_TYPE_SHOW_MENU then
    match a.arg with
    | some nm => show_menu env s view nm
    -- C passes a NULL name to the external menu lookup, which finds no menu
    | Option.none => s
  else if a.type = ACTION_TYPE_TOGGLE_MAXIMIZE then
    match view with
    | some v => add_effect s (act_effect.view_toggle_maximize v)
    | Option.none => s
  else if a.type = ACTION_TYPE_TOGGLE_FULLSCREEN then
    match view with
    | some v => add_effect s (act_effect.view_toggle_fullscreen v)
    | Option.none => s
  else if a.type = ACTION_TYPE_TOGGLE_DECORATIONS then
    match view with
    | some v => add_effect s (act_effect.view_toggle_decorations v)
    | Option.none => s
  else if a.type = ACTION_TYPE_TOGGLE_ALWAYS_ON_TOP then
    match view with
    | some v => add_effect s (act_effect.view_toggle_always_on_top v)
    | Option.none => s
  else if a.type = ACTION_TYPE_FOCUS then
    -- view = desktop_view_at_cursor(server)
    match desktop_view_at_cursor s with
    | some v =>
      add_effect { s with focused := some v }
        (act_effect.desktop_focus_and_activate_view v)
    | Option.none => s
  else if a.type = ACTION_TYPE_ICONIFY then
    match view with
    | some v => add_effect s (act_effect.view_minimize v)
    | Option.none => s
  else if a.type = ACTION_TYPE_MOVE then
    match desktop_view_at_cursor s with
    | some v => add_effect s (act_effect.interactive_begin_move v)
    | Option.none => s
  else if a.type = ACTION_TYPE_RAISE then
    match view with
    | some v => add_effect s (act_effect.desktop_move_to_front v)
    | Option.none => s
  else if a.type = ACTION_TYPE_RESIZE then
    match desktop_view_at_cursor s with
    | some v => add_effect s (act_effect.interactive_begin_resize v resize_edges)
    | Option.none => s
  else if a.type = ACTION_TYPE_GO_TO_DESKTOP then
    match env.workspaces_find s.workspace_current a.arg with
    | some target =>
      add_effect { s with workspace_current := target }
        (act_effect.workspaces_switch_to target)
    | Option.none => s
  else if a.type = ACTION_TYPE_SEND_TO_DESKTOP then
    match view with
    | some v =>
      (match env.workspaces_find (env.view_workspace v) a.arg with
       | some target => add_effect s (act_effect.workspaces_send_to v target)
       | Option.none => s)
    | Option.none => s
  else
    -- ACTION_TYPE_NONE and the default branch only wlr_log
    s

/- actions_run, action.c lines 143-300: iterate the list, re-resolving the
target view (activator_or_focused_view) at the top of every iteration.  The
C NULL-list guard has no List counterpart. -/
def actions_run (env : act_env) (activator : Option Nat) (s : server)
    (actions : List action) (resize_edges : Nat) : server :=
  actions.foldl
    (fun st a => run_one env resize_edges (activator_or_focused_view activator st) st a)
    s

/- ===================================================================
   Concrete instances used by witnesses
   =================================================================== -/

/- A concrete external environment for the action engine. -/
def act_env0 : act_env :=
  { desktop_cycle_view := fun cv _ => cv
    workspaces_find := fun _ _ => Option.none
    menu_get_by_id := fun nm =>
      if nm = "client-menu" then some 1
      else if nm = "root-menu" then some 2
      else Option.none
    ssd_at := fun v _ _ =>
      if v = 1 then ssd_part_type.LAB_SSD_BUTTON_WINDOW_MENU
      else if v = 2 then ssd_part_type.LAB_SSD_PART_TITLE
      else ssd_part_type.LAB_SSD_NONE
    ssd_part_contains := fun p t =>
      (p == ssd_part_type.LAB_SSD_PART_TITLEBAR) &&
      ((t == ssd_part_type.LAB_SSD_PART_TITLE) ||
       (t == ssd_part_type.LAB_SSD_PART_TITLEBAR))
    view_x := fun v => 100 + v
    view_y := fun v => 200 + v
    view_workspace := fun _ => 0
    buf_expand_shell_variables := fun o => o.getD "" }

/- A concrete server state: view 3 focused, nothing under the cursor. -/
def server0 : server :=
  { focused := some 3
    view_at_cursor := Option.none
    cycle_view := Option.none
    workspace_current := 0
    cursor_x := 11
    cursor_y := 13
    log := [] }

/- A concrete external environment for map/unmap. -/
def map_env0 : map_env :=
  { view_set_fullscreen := fun c _ => c
    subsurface_tree_create := fun n => some n
    usable_area := (40, 50)
    view_center := fun c => c
    view_discover_output := fun c => c
    ssd_thickness := fun _ => 4
    ssd_create := fun c => c
    ssd_max_extents := fun c => (c.x - 4, c.y - 20)
    view_impl_map := fun c => c }

/- A concrete unmapped view and its backing surface. -/
def xview0 : xview :=
  { mapped := false
    been_mapped := false
    core :=
      { fullscreen := false
        maximized := false
        x := 0, y := 0, w := 0, h := 0
        surface := Option.none
        scene_node := Option.none
        toplevel_handle := Option.none
        ssd_enabled := false
        margin := 0
        scene_enabled := false
        commit_link := false
        log := [] } }

def xsurface0 : xwayland_surface :=
  { fullscreen := false
    x := 7, y := 9, width := 300, height := 200
    surface := 42
    decorations_all := true }

/- ===================================================================
   Theorems
   =================================================================== -/

/- ---- helper lemmas ---- -/

theorem int16_of_range (z : Int) : -32768 ≤ int16_of z ∧ int16_of z ≤ 32767 := by
  have h1 : 0 ≤ z % 65536 := Int.emod_nonneg z (by norm_num)
  have h2 : z % 65536 < 65536 := Int.emod_lt_of_pos z (by norm_num)
  simp only [int16_of]
  split <;> omega

theorem uint16_of_range (z : Int) : 0 ≤ uint16_of z ∧ uint16_of z ≤ 65535 := by
  unfold uint16_of
  have h1 : 0 ≤ z % 65536 := Int.emod_nonneg z (by norm_num)
  have h2 : z % 65536 < 65536 := Int.emod_lt_of_pos z (by norm_num)
  omega

/-- Claim C1: for a pending geometry request with update_x = true and
update_y = false, when the committed client size equals the stored requested
size, handle_commit sets the view's x to
requested_x + requested_width - acknowledged_width, clears update_x, and
leaves y and update_y unchanged. -/
theorem commit_right_edge_anchor (v : view) (st : wlr_surface_state)
    (hx : v.pending_move_resize.update_x = true)
    (hy : v.pending_move_resize.update_y = false)
    (hw : st.width = v.pending_move_resize.width)
    (hh : st.height = v.pending_move_resize.height) :
    (handle_commit v st).1.x =
      v.pending_move_resize.x + v.pending_move_resize.width - st.width ∧
    (handle_commit v st).1.pending_move_resize.update_x = false ∧
    (handle_commit v st).1.y = v.y ∧
    (handle_commit v st).1.pending_move_resize.update_y =
      v.pending_move_resize.update_y := by
  simp [handle_commit, hx, hy, hw, hh]

/-- Witness for commit_right_edge_anchor at a concrete view and commit. -/
theorem commit_right_edge_anchor_witness :
    (handle_commit ⟨10, 20, 50, 60, ⟨true, false, 5, 7, 40, 60⟩⟩ ⟨40, 60⟩).1.x =
      5 + 40 - 40 ∧
    (handle_commit ⟨10, 20, 50, 60, ⟨true, false, 5, 7, 40, 60⟩⟩
      ⟨40, 60⟩).1.pending_move_resize.update_x = false ∧
    (handle_commit ⟨10, 20, 50, 60, ⟨true, false, 5, 7, 40, 60⟩⟩ ⟨40, 60⟩).1.y = 20 ∧
    (handle_commit ⟨10, 20, 50, 60, ⟨true, false, 5, 7, 40, 60⟩⟩
      ⟨40, 60⟩).1.pending_move_resize.update_y = false :=
  commit_right_edge_anchor ⟨10, 20, 50, 60, ⟨true, false, 5, 7, 40, 60⟩⟩ ⟨40, 60⟩
    rfl rfl rfl rfl

/-- Claim C5: on a commit with no pending position update and a client size
equal to the view's current size, handle_commit returns the view unchanged
and performs no repositioning and no decoration-geometry update. -/
theorem commit_short_circuit (v : view) (st : wlr_surface_state)
    (hx : v.pending_move_resize.update_x = false)
    (hy : v.pending_move_resize.update_y = false)
    (hw : v.w = st.width)
    (hh : v.h = st.height) :
    handle_commit v st =
      (v, { set_position := Option.none, ssd_update_geometry := false }) := by
  simp [handle_commit, hx, hy, hw, hh]

/-- Witness for commit_short_circuit at a concrete view and commit. -/
theorem commit_short_circuit_witness :
    handle_commit ⟨10, 20, 50, 60, ⟨false, false, 5, 7, 40, 60⟩⟩ ⟨50, 60⟩ =
      (⟨10, 20, 50, 60, ⟨false, false, 5, 7, 40, 60⟩⟩,
       { set_position := Option.none, ssd_update_geometry := false }) :=
  commit_short_circuit ⟨10, 20, 50, 60, ⟨false, false, 5, 7, 40, 60⟩⟩ ⟨50, 60⟩
    rfl rfl rfl rfl

/-- Claim C9: configure stores the untruncated request in
pending_move_resize while forwarding x/y reduced to signed 16 bits and
width/height reduced to unsigned 16 bits; move likewise stores the
untruncated position and forwards the truncation; hence any coordinate
outside [-32768, 32767] or extent outside [0, 65535] is stored and sent
as different values. -/
theorem configure_truncates_to_16_bits (v : view) (geo : wlr_box)
    (sg : xwayland_surface_geom) (x y : Int) :
    ((configure v geo).1.pending_move_resize.x = geo.x ∧
     (configure v geo).1.pending_move_resize.y = geo.y ∧
     (configure v geo).1.pending_move_resize.width = geo.width ∧
     (configure v geo).1.pending_move_resize.height = geo.height) ∧
    (configure v geo).2 =
      { x := int16_of geo.x, y := int16_of geo.y,
        width := uint16_of geo.width, height := uint16_of geo.height } ∧
    ((geo.x < -32768 ∨ 32767 < geo.x) →
      (configure v geo).2.x ≠ (configure v geo).1.pending_move_resize.x) ∧
    ((geo.y < -32768 ∨ 32767 < geo.y) →
      (configure v geo).2.y ≠ (configure v geo).1.pending_move_resize.y) ∧
    ((geo.width < 0 ∨ 65535 < geo.width) →
      (configure v geo).2.width ≠ (configure v geo).1.pending_move_resize.width) ∧
    ((geo.height < 0 ∨ 65535 < geo.height) →
      (configure v geo).2.height ≠ (configure v geo).1.pending_move_resize.height) ∧
    ((move v sg x y).1.x = x ∧ (move v sg x y).1.y = y ∧
     (move v sg x y).2.x = int16_of x ∧ (move v sg x y).2.y = int16_of y ∧
     ((x < -32768 ∨ 32767 < x) → (move v sg x y).2.x ≠ (move v sg x y).1.x) ∧
     ((y < -32768 ∨ 32767 < y) → (move v sg x y).2.y ≠ (move v sg x y).1.y)) := by
  have hx := int16_of_range geo.x
  have hy := int16_of_range geo.y
  have hw := uint16_of_range geo.width
  have hh := uint16_of_range geo.height
  have hmx := int16_of_range x
  have hmy := int16_of_range y
  refine ⟨⟨rfl, rfl, rfl, rfl⟩, rfl, ?_, ?_, ?_, ?_, rfl, rfl, rfl, rfl, ?_, ?_⟩ <;>
    · intro h
      simp only [configure, move]
      omega

/-- Witness for configure_truncates_to_16_bits at an out-of-range request. -/
theorem configure_truncates_to_16_bits_witness :
    (configure ⟨0, 0, 0, 0, ⟨false, false, 0, 0, 0, 0⟩⟩
      ⟨100000, -40000, 70000, 70000⟩).2.x ≠
    (configure ⟨0, 0, 0, 0, ⟨false, false, 0, 0, 0, 0⟩⟩
      ⟨100000, -40000, 70000, 70000⟩).1.pending_move_resize.x ∧
    (configure ⟨0, 0, 0, 0, ⟨false, false, 0, 0, 0, 0⟩⟩
      ⟨100000, -40000, 70000, 70000⟩).2.width ≠
    (configure ⟨0, 0, 0, 0, ⟨false, false, 0, 0, 0, 0⟩⟩
      ⟨100000, -40000, 70000, 70000⟩).1.pending_move_resize.width ∧
    (move ⟨0, 0, 0, 0, ⟨false, false, 0, 0, 0, 0⟩⟩ ⟨300, 200⟩ 100000 (-40000)).2.x ≠
    (move ⟨0, 0, 0, 0, ⟨false, false, 0, 0, 0, 0⟩⟩ ⟨300, 200⟩ 100000 (-40000)).1.x :=
  ⟨(configure_truncates_to_16_bits ⟨0, 0, 0, 0, ⟨false, false, 0, 0, 0, 0⟩⟩
      ⟨100000, -40000, 70000, 70000⟩ ⟨300, 200⟩ 100000 (-40000)).2.2.1
      (Or.inr (by norm_num)),
   (configure_truncates_to_16_bits ⟨0, 0, 0, 0, ⟨false, false, 0, 0, 0, 0⟩⟩
      ⟨100000, -40000, 70000, 70000⟩ ⟨300, 200⟩ 100000 (-40000)).2.2.2.2.1
      (Or.inr (by norm_num)),
   (configure_truncates_to_16_bits ⟨0, 0, 0, 0, ⟨false, false, 0, 0, 0, 0⟩⟩
      ⟨100000, -40000, 70000, 70000⟩ ⟨300, 200⟩ 100000
      (-40000)).2.2.2.2.2.2.2.2.2.2.1 (Or.inr (by norm_num))⟩

/-- Claim C10: get_string_prop answers "title", "class" and "app_id" with
the stored surface values directly (app_id with the class value), which may
be absent rather than empty, and returns the empty string exactly in the
fallback for every other name. -/
theorem get_string_prop_spec (s : xwayland_surface_props) (prop : String) :
    (prop ≠ "title" → prop ≠ "class" → prop ≠ "app_id" →
      get_string_prop s prop = some "") ∧
    get_string_prop s "title" = s.title ∧
    get_string_prop s "class" = s.wm_class ∧
    get_string_prop s "app_id" = s.wm_class ∧
    get_string_prop { title := Option.none, wm_class := Option.none } "title" =
      Option.none := by
  refine ⟨?_, ?_, ?_, ?_, rfl⟩
  · intro h1 h2 h3
    simp [get_string_prop, h1, h2, h3]
  · simp [get_string_prop]
  · simp [get_string_prop]
  · simp [get_string_prop]

/-- Witness for get_string_prop_spec at a concrete surface and name. -/
theorem get_string_prop_spec_witness :
    get_string_prop ⟨some "T", Option.none⟩ "frobnicate" = some "" ∧
    get_string_prop ⟨some "T", Option.none⟩ "title" = some "T" ∧
    get_string_prop ⟨some "T", Option.none⟩ "app_id" = Option.none :=
  ⟨(get_string_prop_spec ⟨some "T", Option.none⟩ "frobnicate").1
      (by decide) (by decide) (by decide),
   (get_string_prop_spec ⟨some "T", Option.none⟩ "frobnicate").2.1,
   (get_string_prop_spec ⟨some "T", Option.none⟩ "frobnicate").2.2.2.1⟩

/-- Claim C8, counterexample: the order of the wl_list_remove calls in
handle_destroy is not the reverse of the wl_signal_add order in
xwayland_surface_new (the destroy listener, registered third, is removed
last, and the others are removed roughly in registration order). -/
theorem handle_destroy_order_not_reversed :
    handle_destroy_removals ≠ xwayland_surface_new_registrations.reverse := by
  decide

/-- Claim C8, amended: handle_destroy removes every listener registered in
xwayland_surface_new exactly once (the removals are a permutation of the
registrations), and all removals happen before view_destroy frees the view;
but the removal order is not the reverse of the registration order. -/
theorem handle_destroy_unregisters_all_before_free :
    handle_destroy_trace =
      handle_destroy_removals.map destroy_step.remove ++
        [destroy_step.view_destroy] ∧
    handle_destroy_removals.Perm xwayland_surface_new_registrations := by
  exact ⟨rfl, by decide⟩

/- ---- map/unmap idempotence helpers ---- -/

theorem map_of_mapped (env : map_env) (xs : xwayland_surface) (v : xview)
    (h : v.mapped = true) : map env xs v = v := by
  simp [map, h]

theorem map_rest_mapped (env : map_env) (xs : xwayland_surface) (b : Bool)
    (c : view_core) : (map_rest env xs b c).mapped = true := rfl

theorem map_mapped_of_unmapped (env : map_env) (xs : xwayland_surface)
    (v : xview) (h : v.mapped = false) : (map env xs v).mapped = true := by
  rw [map]
  simp only [h, Bool.false_eq_true, if_false]
  repeat' split
  all_goals rfl

/-- Claim C4: map is idempotent (mapping an already-mapped view is a no-op,
so mapping twice gives exactly the state of mapping once, with no second
drawable subtree and the been_mapped-gated setup running at most once), and
unmap on an unmapped view is a no-op. -/
theorem map_unmap_idempotent (env : map_env) (xs : xwayland_surface)
    (v : xview) :
    map env xs (map env xs v) = map env xs v ∧
    (v.mapped = false → unmap v = v) := by
  constructor
  · cases h : v.mapped
    · exact map_of_mapped env xs _ (map_mapped_of_unmapped env xs v h)
    · rw [map_of_mapped env xs v h]
      exact map_of_mapped env xs v h
  · intro h
    simp [unmap, h]

/-- Witness for map_unmap_idempotent at a concrete environment and an
unmapped view. -/
theorem map_unmap_idempotent_witness :
    map map_env0 xsurface0 (map map_env0 xsurface0 xview0) =
      map map_env0 xsurface0 xview0 ∧
    unmap xview0 = xview0 :=
  ⟨(map_unmap_idempotent map_env0 xsurface0 xview0).1,
   (map_unmap_idempotent map_env0 xsurface0 xview0).2 rfl⟩

/- ---- unknown action names ---- -/

theorem find_action_type_of_no_match (nm : String) :
    ∀ (l : List String) (i : Nat), (∀ s ∈ l, strcaseeq nm s = false) →
      find_action_type nm l i = ACTION_TYPE_NONE := by
  intro l
  induction l with
  | nil => intro i _; rfl
  | cons hd tl ih =>
    intro i h
    have hhd : strcaseeq nm hd = false := h hd (List.mem_cons_self hd tl)
    simp only [find_action_type, hhd, Bool.false_eq_true, if_false]
    exact ih (i + 1) (fun s hs => h s (List.mem_cons_of_mem hd hs))

/-- Claim C3: every action-name string that matches none of the fixed
enumeration case-insensitively yields, through action_create, an action
(never a dropped/failed one) whose type is the ACTION_TYPE_NONE sentinel,
and running a sentinel-typed action through the actions_run dispatch leaves
the server state entirely unchanged (only a log line is emitted). -/
theorem unknown_action_is_noop (name : String)
    (h : ∀ s ∈ action_names, strcaseeq name s = false) :
    (∃ a, action_create (some name) = some a ∧ a.type = ACTION_TYPE_NONE) ∧
    (∀ (env : act_env) (edges : Nat) (view : Option Nat) (s : server)
       (a : action), a.type = ACTION_TYPE_NONE →
         run_one env edges view s a = s) := by
  constructor
  · refine ⟨{ type := action_type_from_str name, arg := Option.none }, rfl, ?_⟩
    unfold action_type_from_str
    exact find_action_type_of_no_match name (action_names.drop 1) 1
      (fun s hs => h s (List.mem_of_mem_drop hs))
  · intro env edges view s a ha
    simp [run_one, ha, ACTION_TYPE_NONE, ACTION_TYPE_CLOSE, ACTION_TYPE_DEBUG,
      ACTION_TYPE_EXECUTE, ACTION_TYPE_EXIT, ACTION_TYPE_MOVE_TO_EDGE,
      ACTION_TYPE_SNAP_TO_EDGE, ACTION_TYPE_NEXT_WINDOW,
      ACTION_TYPE_PREVIOUS_WINDOW, ACTION_TYPE_RECONFIGURE,
      ACTION_TYPE_SHOW_MENU, ACTION_TYPE_TOGGLE_MAXIMIZE,
      ACTION_TYPE_TOGGLE_FULLSCREEN, ACTION_TYPE_TOGGLE_DECORATIONS,
      ACTION_TYPE_TOGGLE_ALWAYS_ON_TOP, ACTION_TYPE_FOCUS,
      ACTION_TYPE_ICONIFY, ACTION_TYPE_MOVE, ACTION_TYPE_RAISE,
      ACTION_TYPE_RESIZE, ACTION_TYPE_GO_TO_DESKTOP,
      ACTION_TYPE_SEND_TO_DESKTOP]

/-- Witness for unknown_action_is_noop at the unknown name "Bogus". -/
theorem unknown_action_is_noop_witness :
    (∃ a, action_create (some "Bogus") = some a ∧ a.type = ACTION_TYPE_NONE) ∧
    run_one act_env0 0 (some 3) server0
      { type := ACTION_TYPE_NONE, arg := Option.none } = server0 :=
  ⟨(unknown_action_is_noop "Bogus" (by decide)).1,
   (unknown_action_is_noop "Bogus" (by decide)).2 act_env0 0 (some 3) server0
     { type := ACTION_TYPE_NONE, arg := Option.none } rfl⟩

/-- Claim C2: actions_run resolves the target view afresh at the top of
every iteration - the head action of any list runs against
activator_or_focused_view of the state at that moment, and the tail then
runs from the resulting state, so the target is never computed once for the
whole list; in particular [Focus, Close] with no activator and nothing
under the cursor leaves Focus a no-op and Close acting on whichever view is
focused when it runs (a no-op if none). -/
theorem actions_run_refetches_target (env : act_env) (activator : Option Nat)
    (edges : Nat) (s : server) (a : action) (acts : List action) :
    actions_run env activator s (a :: acts) edges =
      actions_run env activator
        (run_one env edges (activator_or_focused_view activator s) s a)
        acts edges ∧
    (s.view_at_cursor = Option.none →
      actions_run env Option.none s
        [{ type := ACTION_TYPE_FOCUS, arg := Option.none },
         { type := ACTION_TYPE_CLOSE, arg := Option.none }] edges =
        match s.focused with
        | some v => add_effect s (act_effect.view_close v)
        | Option.none => s) := by
  constructor
  · rfl
  · intro h
    cases hf : s.focused <;>
      simp [actions_run, run_one, activator_or_focused_view,
        desktop_focused_view, desktop_view_at_cursor, h, hf,
        ACTION_TYPE_NONE, ACTION_TYPE_CLOSE, ACTION_TYPE_DEBUG,
        ACTION_TYPE_EXECUTE, ACTION_TYPE_EXIT, ACTION_TYPE_MOVE_TO_EDGE,
        ACTION_TYPE_SNAP_TO_EDGE, ACTION_TYPE_NEXT_WINDOW,
        ACTION_TYPE_PREVIOUS_WINDOW, ACTION_TYPE_RECONFIGURE,
        ACTION_TYPE_SHOW_MENU, ACTION_TYPE_TOGGLE_MAXIMIZE,
        ACTION_TYPE_TOGGLE_FULLSCREEN, ACTION_TYPE_TOGGLE_DECORATIONS,
        ACTION_TYPE_TOGGLE_ALWAYS_ON_TOP, ACTION_TYPE_FOCUS,
        ACTION_TYPE_ICONIFY, ACTION_TYPE_MOVE, ACTION_TYPE_RAISE,
        ACTION_TYPE_RESIZE, ACTION_TYPE_GO_TO_DESKTOP,
        ACTION_TYPE_SEND_TO_DESKTOP]

/-- Witness for actions_run_refetches_target: view 5 as activator for the
head-step equation, and the [Focus, Close] scenario on server0 (view 3
focused, nothing under the cursor). -/
theorem actions_run_refetches_target_witness :
    (actions_run act_env0 (some 5) server0
       [{ type := ACTION_TYPE_CLOSE, arg := Option.none }] 0 =
      actions_run act_env0 (some 5)
        (run_one act_env0 0 (activator_or_focused_view (some 5) server0)
          server0 { type := ACTION_TYPE_CLOSE, arg := Option.none }) [] 0) ∧
    actions_run act_env0 Option.none server0
      [{ type := ACTION_TYPE_FOCUS, arg := Option.none },
       { type := ACTION_TYPE_CLOSE, arg := Option.none }] 0 =
      add_effect server0 (act_effect.view_close 3) :=
  ⟨(actions_run_refetches_target act_env0 (some 5) 0 server0
      { type := ACTION_TYPE_CLOSE, arg := Option.none } []).1,
   (actions_run_refetches_target act_env0 Option.none 0 server0
      { type := ACTION_TYPE_FOCUS, arg := Option.none }
      [{ type := ACTION_TYPE_CLOSE, arg := Option.none }]).2 rfl⟩

/-- Claim C6: show_menu anchors the client menu at the view's top-left when
the cursor hits the window-menu button, at the cursor when it hits any
other titlebar part, and at the view's top-left for every other hit region;
menus other than the client menu are always anchored at the cursor. -/
theorem show_menu_anchor (env : act_env) (s : server) (v : Nat) (m : Nat)
    (nm : String) :
    (env.menu_get_by_id nm = some m → strcaseeq nm "client-menu" = true →
      env.ssd_at v s.cursor_x s.cursor_y =
        ssd_part_type.LAB_SSD_BUTTON_WINDOW_MENU →
      show_menu env s (some v) nm =
        add_effect
          (add_effect s (act_effect.menu_set_triggered_by_view m (some v)))
          (act_effect.menu_open m (env.view_x v) (env.view_y v))) ∧
    (∀ t, env.menu_get_by_id nm = some m → strcaseeq nm "client-menu" = true →
      env.ssd_at v s.cursor_x s.cursor_y = t →
      t ≠ ssd_part_type.LAB_SSD_BUTTON_WINDOW_MENU →
      env.ssd_part_contains ssd_part_type.LAB_SSD_PART_TITLEBAR t = true →
      show_menu env s (some v) nm =
        add_effect
          (add_effect s (act_effect.menu_set_triggered_by_view m (some v)))
          (act_effect.menu_open m s.cursor_x s.cursor_y)) ∧
    (∀ t, env.menu_get_by_id nm = some m → strcaseeq nm "client-menu" = true →
      env.ssd_at v s.cursor_x s.cursor_y = t →
      t ≠ ssd_part_type.LAB_SSD_BUTTON_WINDOW_MENU →
      env.ssd_part_contains ssd_part_type.LAB_SSD_PART_TITLEBAR t = false →
      show_menu env s (some v) nm =
        add_effect
          (add_effect s (act_effect.menu_set_triggered_by_view m (some v)))
          (act_effect.menu_open m (env.view_x v) (env.view_y v))) ∧
    (∀ view, env.menu_get_by_id nm = some m →
      strcaseeq nm "client-menu" = false →
      show_menu env s view nm =
        add_effect
          (add_effect s (act_effect.menu_set_triggered_by_view m view))
          (act_effect.menu_open m s.cursor_x s.cursor_y)) := by
  refine ⟨?_, ?_, ?_, ?_⟩
  · intro hm hc ht
    simp [show_menu, hm, hc, ht]
  · intro t hm hc ht hne hcont
    simp [show_menu, hm, hc, ht, hne, hcont]
  · intro t hm hc ht hne hcont
    simp [show_menu, hm, hc, ht, hne, hcont]
  · intro view hm hc
    simp [show_menu, hm, hc]

/-- Witness for show_menu_anchor: in act_env0 the client menu is id 1 and
the cursor of server0 is (11, 13); view 1 hits the window-menu button
(anchor at its top-left (101, 201)), view 2 hits the title part (anchor at
the cursor), view 3 hits no decoration (anchor at its top-left (103, 203)),
and the non-client menu "root-menu" (id 2) anchors at the cursor. -/
theorem show_menu_anchor_witness :
    show_menu act_env0 server0 (some 1) "client-menu" =
      add_effect
        (add_effect server0 (act_effect.menu_set_triggered_by_view 1 (some 1)))
        (act_effect.menu_open 1 101 201) ∧
    show_menu act_env0 server0 (some 2) "client-menu" =
      add_effect
        (add_effect server0 (act_effect.menu_set_triggered_by_view 1 (some 2)))
        (act_effect.menu_open 1 11 13) ∧
    show_menu act_env0 server0 (some 3) "client-menu" =
      add_effect
        (add_effect server0 (act_effect.menu_set_triggered_by_view 1 (some 3)))
        (act_effect.menu_open 1 103 203) ∧
    show_menu act_env0 server0 (some 1) "root-menu" =
      add_effect
        (add_effect server0 (act_effect.menu_set_triggered_by_view 2 (some 1)))
        (act_effect.menu_open 2 11 13) :=
  ⟨(show_menu_anchor act_env0 server0 1 1 "client-menu").1
      (by decide) (by decide) (by decide),
   (show_menu_anchor act_env0 server0 2 1 "client-menu").2.1
      ssd_part_type.LAB_SSD_PART_TITLE
      (by decide) (by decide) (by decide) (by decide) (by decide),
   (show_menu_anchor act_env0 server0 3 1 "client-menu").2.2.1
      ssd_part_type.LAB_SSD_NONE
      (by decide) (by decide) (by decide) (by decide) (by decide),
   (show_menu_anchor act_env0 server0 1 2 "root-menu").2.2.2
      (some 1) (by decide) (by decide)⟩

/-- Claim C7: show_menu returns without opening a menu and without touching
any state when the menu name is unknown, and likewise when the menu is the
client menu but no target view exists. -/
theorem show_menu_skips (env : act_env) (s : server) (view : Option Nat)
    (nm : String) :
    (env.menu_get_by_id nm = Option.none → show_menu env s view nm = s) ∧
    (strcaseeq nm "client-menu" = true →
      show_menu env s Option.none nm = s) := by
  constructor
  · intro h
    simp [show_menu, h]
  · intro h
    cases hm : env.menu_get_by_id nm <;> simp [show_menu, h, hm]

/-- Witness for show_menu_skips: "no-such-menu" is unknown in act_env0, and
the client menu with no view is skipped even though the menu exists. -/
theorem show_menu_skips_witness :
    show_menu act_env0 server0 (some 1) "no-such-menu" = server0 ∧
    show_menu act_env0 server0 Option.none "client-menu" = server0 :=
  ⟨(show_menu_skips act_env0 server0 (some 1) "no-such-menu").1 (by decide),
   (show_menu_skips act_env0 server0 Option.none "client-menu").2 (by decide)⟩
